import Mathlib

/-!
Verification of the theme-toggle scripts and the RSS feed generation of a
static blog site.  The two browser scripts (`theme.js` and
`scripts/theme.js`) are embedded as pure functions over an explicit DOM/storage
state; the feed generator is modelled from the specification because its
Python source is not part of the source tree under verification.
-/

/-- The observable browser state the theme scripts interact with:
the `data-theme` attribute on `document.documentElement` (absent = `none`),
the `theme` key of `localStorage` (absent = `none`), and the content of the
`.theme-toggle` element (`innerHTML` / `textContent`). -/
structure DOMState where
  dataTheme : Option String
  storage : Option String
  icon : String
deriving DecidableEq

/-- JavaScript `a || b` on a nullable string: `null` and the empty string are
falsy, every other string is truthy. -/
def jsOrString (a : Option String) (b : String) : String :=
  match a with
  | none => b
  | some s => if s = "" then b else s

/-- The `sunIcon` template literal of `src/theme.js` (inline SVG). -/
def sunIcon : String := "\n<svg width=\"24\" height=\"24\" fill=\"white\" stroke=\"white\" stroke-width=\"2\" viewBox=\"0 0 24 24\" color=\"black\">\n  <circle cx=\"12\" cy=\"12\" r=\"5\"></circle>\n  <path d=\"M12 1v2\"></path>\n  <path d=\"M12 21v2\"></path>\n  <path d=\"M4.22 4.22l1.42 1.42\"></path>\n  <path d=\"M18.36 18.36l1.42 1.42\"></path>\n  <path d=\"M1 12h2\"></path>\n  <path d=\"M21 12h2\"></path>\n  <path d=\"M4.22 19.78l1.42-1.42\"></path>\n  <path d=\"M18.36 5.64l1.42-1.42\"></path>\n</svg>\n"

/-- The `moonIcon` template literal of `src/theme.js` (inline SVG). -/
def moonIcon : String := "\n<svg width=\"24\" height=\"24\" fill=\"#333\" stroke=\"#333\" stroke-width=\"2\" viewBox=\"0 0 24 24\">\n  <path d=\"M21 12.79A9 9 0 1 1 11.21 3 7 7 0 0 0 21 12.79z\"></path>\n</svg>\n"

/-- Load-time part of `src/theme.js`: reads `localStorage.getItem('theme')`,
falls back to the OS `prefers-color-scheme: dark` media query, sets the
`data-theme` attribute and the toggle's `innerHTML`. -/
def themeJs_load (prefersDark : Bool) (st : DOMState) : DOMState :=
  let currentTheme := jsOrString st.storage (if prefersDark then "dark" else "light")
  { st with
    dataTheme := some currentTheme
    icon := if currentTheme = "dark" then sunIcon else moonIcon }

/-- Click listener of `src/theme.js`: flips the theme read from the
`data-theme` attribute (anything other than `'dark'` becomes `'dark'`),
sets the attribute, persists to `localStorage`, and updates the icon. -/
def themeJs_click (st : DOMState) : DOMState :=
  let newTheme := if st.dataTheme = some "dark" then "light" else "dark"
  { st with
    dataTheme := some newTheme
    storage := some newTheme
    icon := if newTheme = "dark" then sunIcon else moonIcon }

/-- Load-time part of `src/scripts/theme.js`: identical state logic, but the
toggle's `textContent` is set to an emoji glyph. -/
def scriptsThemeJs_load (prefersDark : Bool) (st : DOMState) : DOMState :=
  let currentTheme := jsOrString st.storage (if prefersDark then "dark" else "light")
  { st with
    dataTheme := some currentTheme
    icon := if currentTheme = "dark" then "☀️" else "🌙" }

/-- Click listener of `src/scripts/theme.js`: identical state logic to
`themeJs_click`, emoji glyph instead of inline SVG. -/
def scriptsThemeJs_click (st : DOMState) : DOMState :=
  let newTheme := if st.dataTheme = some "dark" then "light" else "dark"
  { st with
    dataTheme := some newTheme
    storage := some newTheme
    icon := if newTheme = "dark" then "☀️" else "🌙" }

/-- A fresh page load of `src/theme.js` with given storage contents and OS
signal, followed by `n` toggle clicks. -/
def themeJs_run (storage : Option String) (prefersDark : Bool) : Nat → DOMState
  | 0 => themeJs_load prefersDark { dataTheme := none, storage := storage, icon := "" }
  | n + 1 => themeJs_click (themeJs_run storage prefersDark n)

/-- A fresh page load of `src/scripts/theme.js` with given storage contents
and OS signal, followed by `n` toggle clicks. -/
def scriptsThemeJs_run (storage : Option String) (prefersDark : Bool) : Nat → DOMState
  | 0 => scriptsThemeJs_load prefersDark { dataTheme := none, storage := storage, icon := "" }
  | n + 1 => scriptsThemeJs_click (scriptsThemeJs_run storage prefersDark n)

/-- The theme preference of the spec's data model: a two-valued enumeration. -/
inductive Theme where
  | light
  | dark
deriving DecidableEq

/-- The string a theme value is stored and rendered as. -/
def Theme.str : Theme → String
  | .light => "light"
  | .dark => "dark"

/-- The spec's page record: metadata extracted from one HTML page.  Publish
timestamps are modelled as natural numbers (any totally ordered, unambiguous
stamp); `published` is optional, required for article pages. -/
structure PageRecord where
  path : String
  title : String
  description : String
  canonicalUrl : String
  ogType : String
  published : Option Nat
deriving DecidableEq

/-- One RSS feed entry: title, link, description, and publish date. -/
structure RssEntry where
  title : String
  link : String
  description : String
  pubDate : Nat
deriving DecidableEq

/-- The feed entry an article page contributes: its title, canonical URL as
the link, its description, and its publish date. -/
def rssEntryOf (p : PageRecord) : RssEntry :=
  { title := p.title
    link := p.canonicalUrl
    description := p.description
    pubDate := p.published.getD 0 }

/-- Insert an entry into a list kept in descending publish-date order. -/
def insertDesc (e : RssEntry) : List RssEntry → List RssEntry
  | [] => [e]
  | f :: fs => if e.pubDate ≤ f.pubDate then f :: insertDesc e fs else e :: f :: fs

/-- Sort feed entries by publish date, newest first. -/
def sortByDateDesc : List RssEntry → List RssEntry
  | [] => []
  | e :: es => insertDesc e (sortByDateDesc es)

/-- Modelled from the spec: the repository's `scripts/generate_meta.py`, which
writes `blog/rss.xml`, is not among the available source files.  Per the spec,
the RSS feed holds "one entry per article-type page, ordered by published
timestamp descending, each entry carrying title, link, description, and
publish date". -/
def generateRss (pages : List PageRecord) : List RssEntry :=
  sortByDateDesc ((pages.filter (fun p => p.ogType == "article")).map rssEntryOf)

/-- A concrete article page used to witness the feed theorem. -/
def pageA : PageRecord :=
  { path := "blog/a.html"
    title := "A"
    description := "post a"
    canonicalUrl := "https://example.org/blog/a.html"
    ogType := "article"
    published := some 2 }

/-- A second, older concrete article page used to witness the feed theorem. -/
def pageB : PageRecord :=
  { path := "blog/b.html"
    title := "B"
    description := "post b"
    canonicalUrl := "https://example.org/blog/b.html"
    ogType := "article"
    published := some 1 }

/-- Claim C1: on page load, the applied theme is resolved in priority order:
a persisted preference when one exists, else dark when the OS signals a dark
preference, else light.  Holds for both script variants. -/
theorem C1_load_priority (pref : Option Theme) (osDark : Bool) (st : DOMState)
    (h : st.storage = pref.map Theme.str) :
    (themeJs_load osDark st).dataTheme =
      some (match pref with
            | some t => t.str
            | none => if osDark then "dark" else "light")
    ∧ (scriptsThemeJs_load osDark st).dataTheme =
      some (match pref with
            | some t => t.str
            | none => if osDark then "dark" else "light") := by
  cases pref with
  | none =>
    simp [themeJs_load, scriptsThemeJs_load, jsOrString, h]
  | some t =>
    cases t <;>
      simp [themeJs_load, scriptsThemeJs_load, jsOrString, h, Theme.str]

/-- Witness for C1 at a concrete input: no persisted value, OS prefers dark. -/
theorem C1_load_priority_witness :
    ({ dataTheme := none, storage := none, icon := "" } : DOMState).storage
      = (Option.map Theme.str none)
    ∧ (themeJs_load true { dataTheme := none, storage := none, icon := "" }).dataTheme
        = some "dark"
    ∧ (scriptsThemeJs_load true { dataTheme := none, storage := none, icon := "" }).dataTheme
        = some "dark" := by
  refine ⟨rfl, ?_⟩
  exact C1_load_priority none true { dataTheme := none, storage := none, icon := "" } rfl

/-- Claim C2: from a current state whose `data-theme` attribute is `light` or
`dark`, one click flips the theme, updates the attribute and the icon to the
new state, and persists the new value — in both script variants. -/
theorem C2_toggle_click (st : DOMState) (t : String)
    (h : st.dataTheme = some t) (ht : t = "light" ∨ t = "dark") :
    (themeJs_click st).dataTheme = some (if t = "dark" then "light" else "dark")
    ∧ (themeJs_click st).storage = some (if t = "dark" then "light" else "dark")
    ∧ (themeJs_click st).icon =
        (if (if t = "dark" then "light" else "dark") = "dark" then sunIcon else moonIcon)
    ∧ (scriptsThemeJs_click st).dataTheme = some (if t = "dark" then "light" else "dark")
    ∧ (scriptsThemeJs_click st).storage = some (if t = "dark" then "light" else "dark")
    ∧ (scriptsThemeJs_click st).icon =
        (if (if t = "dark" then "light" else "dark") = "dark" then "☀️" else "🌙") := by
  rcases ht with ht | ht <;> subst ht <;>
    simp [themeJs_click, scriptsThemeJs_click, h]

/-- Witness for C2 at a concrete input: attribute `dark` flips to `light`. -/
theorem C2_toggle_click_witness :
    ({ dataTheme := some "dark", storage := some "dark", icon := sunIcon } : DOMState).dataTheme
      = some "dark"
    ∧ ("dark" = "light" ∨ "dark" = "dark")
    ∧ (themeJs_click { dataTheme := some "dark", storage := some "dark", icon := sunIcon }).dataTheme
        = some (if "dark" = "dark" then "light" else "dark") := by
  refine ⟨rfl, Or.inr rfl, ?_⟩
  exact (C2_toggle_click
    { dataTheme := some "dark", storage := some "dark", icon := sunIcon }
    "dark" rfl (Or.inr rfl)).1

/-- Counterexample to claim C3 as stated: in the state reached by loading
`src/scripts/theme.js` with empty storage on a light-scheme OS, the persisted
value is absent; after two clicks it is `some "light"`, so the persisted value
does not return to its original value. -/
theorem C3_counterexample :
    (scriptsThemeJs_load false { dataTheme := none, storage := none, icon := "" }).storage = none
    ∧ (scriptsThemeJs_click (scriptsThemeJs_click
        (scriptsThemeJs_load false { dataTheme := none, storage := none, icon := "" }))).storage
      ≠ (scriptsThemeJs_load false { dataTheme := none, storage := none, icon := "" }).storage := by
  constructor
  · rfl
  · simp [scriptsThemeJs_load, scriptsThemeJs_click, jsOrString]

/-- Claim C3 (amended): for every initial state whose `data-theme` attribute is
`light` or `dark`, two clicks return the attribute to its original value and
leave the persisted value equal to that original attribute value; in
particular, the persisted value returns to its original value whenever it
originally equalled the attribute value. -/
theorem C3_double_click (st : DOMState) (t : String)
    (h : st.dataTheme = some t) (ht : t = "light" ∨ t = "dark") :
    (themeJs_click (themeJs_click st)).dataTheme = st.dataTheme
    ∧ (themeJs_click (themeJs_click st)).storage = some t
    ∧ (st.storage = some t → (themeJs_click (themeJs_click st)).storage = st.storage)
    ∧ (scriptsThemeJs_click (scriptsThemeJs_click st)).dataTheme = st.dataTheme
    ∧ (scriptsThemeJs_click (scriptsThemeJs_click st)).storage = some t
    ∧ (st.storage = some t → (scriptsThemeJs_click (scriptsThemeJs_click st)).storage = st.storage) := by
  rcases ht with ht | ht <;> subst ht <;>
    simp [themeJs_click, scriptsThemeJs_click, h] <;>
    intro hs <;> simp [hs]

/-- Witness for C3 at a concrete input: consistent `light` state round-trips. -/
theorem C3_double_click_witness :
    ({ dataTheme := some "light", storage := some "light", icon := moonIcon } : DOMState).dataTheme
      = some "light"
    ∧ ("light" = "light" ∨ "light" = "dark")
    ∧ (themeJs_click (themeJs_click
        { dataTheme := some "light", storage := some "light", icon := moonIcon })).dataTheme
      = ({ dataTheme := some "light", storage := some "light", icon := moonIcon } : DOMState).dataTheme := by
  refine ⟨rfl, Or.inl rfl, ?_⟩
  exact (C3_double_click
    { dataTheme := some "light", storage := some "light", icon := moonIcon }
    "light" rfl (Or.inl rfl)).1

/-- Counterexample to claim C4 as stated: with prior storage content `"blue"`,
the load-time initialization sets the `data-theme` attribute to `"blue"`,
which is neither `light` nor `dark` (and the stored value stays `"blue"`). -/
theorem C4_counterexample :
    (themeJs_load false { dataTheme := none, storage := some "blue", icon := "" }).dataTheme
      ≠ some "light"
    ∧ (themeJs_load false { dataTheme := none, storage := some "blue", icon := "" }).dataTheme
      ≠ some "dark"
    ∧ (themeJs_load false { dataTheme := none, storage := some "blue", icon := "" }).storage
      = some "blue" := by
  refine ⟨?_, ?_, rfl⟩ <;> simp [themeJs_load, jsOrString]

/-- Claim C4 (amended): after every toggle click the `data-theme` attribute and
the persisted value are both `light` or `dark`, for every prior state; after
the load-time initialization the attribute is `light` or `dark` provided the
prior stored value was absent, empty, `light` or `dark`, and initialization
leaves the stored value unchanged.  Holds for both script variants. -/
theorem C4_two_valued (st st' : DOMState) (pd : Bool)
    (h : st'.storage = none ∨ st'.storage = some "" ∨ st'.storage = some "light"
          ∨ st'.storage = some "dark") :
    ((themeJs_click st).dataTheme = some "light" ∨ (themeJs_click st).dataTheme = some "dark")
    ∧ (themeJs_click st).storage = (themeJs_click st).dataTheme
    ∧ ((scriptsThemeJs_click st).dataTheme = some "light"
        ∨ (scriptsThemeJs_click st).dataTheme = some "dark")
    ∧ (scriptsThemeJs_click st).storage = (scriptsThemeJs_click st).dataTheme
    ∧ ((themeJs_load pd st').dataTheme = some "light"
        ∨ (themeJs_load pd st').dataTheme = some "dark")
    ∧ (themeJs_load pd st').storage = st'.storage
    ∧ ((scriptsThemeJs_load pd st').dataTheme = some "light"
        ∨ (scriptsThemeJs_load pd st').dataTheme = some "dark")
    ∧ (scriptsThemeJs_load pd st').storage = st'.storage := by
  refine ⟨?_, rfl, ?_, rfl, ?_, rfl, ?_, rfl⟩
  · by_cases hd : st.dataTheme = some "dark" <;> simp [themeJs_click, hd]
  · by_cases hd : st.dataTheme = some "dark" <;> simp [scriptsThemeJs_click, hd]
  · rcases h with h | h | h | h <;> cases pd <;>
      simp [themeJs_load, jsOrString, h]
  · rcases h with h | h | h | h <;> cases pd <;>
      simp [scriptsThemeJs_load, jsOrString, h]

/-- Witness for C4 at a concrete input: a click from an attribute-less state
and a load from empty storage both land in the two-valued range. -/
theorem C4_two_valued_witness :
    (({ dataTheme := none, storage := some "", icon := "" } : DOMState).storage = none
      ∨ ({ dataTheme := none, storage := some "", icon := "" } : DOMState).storage = some ""
      ∨ ({ dataTheme := none, storage := some "", icon := "" } : DOMState).storage = some "light"
      ∨ ({ dataTheme := none, storage := some "", icon := "" } : DOMState).storage = some "dark")
    ∧ ((themeJs_click { dataTheme := none, storage := none, icon := "" }).dataTheme = some "light"
        ∨ (themeJs_click { dataTheme := none, storage := none, icon := "" }).dataTheme = some "dark") := by
  refine ⟨Or.inr (Or.inl rfl), ?_⟩
  exact (C4_two_valued
    { dataTheme := none, storage := none, icon := "" }
    { dataTheme := none, storage := some "", icon := "" }
    false (Or.inr (Or.inl rfl))).1

/-- Claim C5: the load-time initialization path never writes to storage — the
persisted value is exactly the prior one — while the click handler is the
write: it stores precisely the newly applied theme.  Both script variants. -/
theorem C5_load_frame (pd : Bool) (st : DOMState) :
    (themeJs_load pd st).storage = st.storage
    ∧ (scriptsThemeJs_load pd st).storage = st.storage
    ∧ (themeJs_click st).storage = (themeJs_click st).dataTheme
    ∧ (scriptsThemeJs_click st).storage = (scriptsThemeJs_click st).dataTheme := by
  exact ⟨rfl, rfl, rfl, rfl⟩

/-- Claim C6: the theme persists across a reload — for every state, after a
click, re-running the load-time initialization on a fresh document with the
storage contents left by that click yields the same applied theme, whatever
the OS color-scheme signal says.  Both script variants. -/
theorem C6_persist_reload (st : DOMState) (pd : Bool) :
    (themeJs_load pd
        { dataTheme := none, storage := (themeJs_click st).storage, icon := "" }).dataTheme
      = (themeJs_click st).dataTheme
    ∧ (scriptsThemeJs_load pd
        { dataTheme := none, storage := (scriptsThemeJs_click st).storage, icon := "" }).dataTheme
      = (scriptsThemeJs_click st).dataTheme := by
  constructor <;>
    by_cases hd : st.dataTheme = some "dark" <;>
      simp [themeJs_load, themeJs_click, scriptsThemeJs_load, scriptsThemeJs_click,
        jsOrString, hd]

/-- Inserting into a list is a permutation of consing. -/
theorem insertDesc_perm (e : RssEntry) (l : List RssEntry) :
    List.Perm (insertDesc e l) (e :: l) := by
  induction l with
  | nil => exact List.Perm.refl _
  | cons f fs ih =>
    by_cases h : e.pubDate ≤ f.pubDate
    · simp only [insertDesc, if_pos h]
      exact (ih.cons f).trans (List.Perm.swap e f fs)
    · simp only [insertDesc, if_neg h]
      exact List.Perm.refl _

/-- Sorting the feed entries permutes them. -/
theorem sortByDateDesc_perm (l : List RssEntry) :
    List.Perm (sortByDateDesc l) l := by
  induction l with
  | nil => exact List.Perm.refl _
  | cons e es ih =>
    exact (insertDesc_perm e (sortByDateDesc es)).trans (ih.cons e)

/-- Insertion preserves descending order of publish dates. -/
theorem insertDesc_sorted (e : RssEntry) (l : List RssEntry)
    (h : List.Pairwise (fun a b => b.pubDate ≤ a.pubDate) l) :
    List.Pairwise (fun a b => b.pubDate ≤ a.pubDate) (insertDesc e l) := by
  induction l with
  | nil => simp [insertDesc]
  | cons f fs ih =>
    rcases List.pairwise_cons.mp h with ⟨hf, hfs⟩
    by_cases hef : e.pubDate ≤ f.pubDate
    · simp only [insertDesc, if_pos hef]
      refine List.pairwise_cons.mpr ⟨?_, ih hfs⟩
      intro x hx
      rcases List.mem_cons.mp ((insertDesc_perm e fs).mem_iff.mp hx) with rfl | hx'
      · exact hef
      · exact hf x hx'
    · simp only [insertDesc, if_neg hef]
      have hfe : f.pubDate ≤ e.pubDate := le_of_lt (lt_of_not_le hef)
      refine List.pairwise_cons.mpr ⟨?_, h⟩
      intro x hx
      rcases List.mem_cons.mp hx with rfl | hx'
      · exact hfe
      · exact le_trans (hf x hx') hfe

/-- The sorted feed is in descending publish-date order. -/
theorem sortByDateDesc_sorted (l : List RssEntry) :
    List.Pairwise (fun a b => b.pubDate ≤ a.pubDate) (sortByDateDesc l) := by
  induction l with
  | nil => simp [sortByDateDesc]
  | cons e es ih => exact insertDesc_sorted e (sortByDateDesc es) ih

/-- Claim C7: for an input set of article pages with publish dates present and
pairwise distinct, the generated RSS feed contains exactly one entry per page
(it is a permutation of the pages' entries), its entries are strictly ordered
by publish date descending, and each entry carries the page's title, link,
description, and publish date. -/
theorem C7_rss_feed (pages : List PageRecord)
    (hart : ∀ p ∈ pages, p.ogType = "article")
    (hpub : ∀ p ∈ pages, p.published.isSome)
    (hdist : List.Pairwise (fun p q => p.published ≠ q.published) pages) :
    List.Perm (generateRss pages) (pages.map rssEntryOf)
    ∧ List.Pairwise (fun a b => b.pubDate < a.pubDate) (generateRss pages)
    ∧ ∀ e ∈ generateRss pages, ∃ p ∈ pages,
        e.title = p.title ∧ e.link = p.canonicalUrl ∧ e.description = p.description
        ∧ p.published = some e.pubDate := by
  have hfilter : pages.filter (fun p => p.ogType == "article") = pages := by
    rw [List.filter_eq_self]
    intro p hp
    simp [hart p hp]
  have hperm : List.Perm (generateRss pages) (pages.map rssEntryOf) := by
    unfold generateRss
    rw [hfilter]
    exact sortByDateDesc_perm _
  have hsorted : List.Pairwise (fun a b : RssEntry => b.pubDate ≤ a.pubDate)
      (generateRss pages) := by
    unfold generateRss
    exact sortByDateDesc_sorted _
  have hne : List.Pairwise (fun a b : RssEntry => a.pubDate ≠ b.pubDate)
      (pages.map rssEntryOf) := by
    rw [List.pairwise_map]
    refine hdist.imp_of_mem ?_
    intro p q hp hq hpq
    rcases Option.isSome_iff_exists.mp (hpub p hp) with ⟨dp, hdp⟩
    rcases Option.isSome_iff_exists.mp (hpub q hq) with ⟨dq, hdq⟩
    simp only [rssEntryOf, hdp, hdq, Option.getD_some]
    intro hEq
    exact hpq (by rw [hdp, hdq, hEq])
  have hne' : List.Pairwise (fun a b : RssEntry => a.pubDate ≠ b.pubDate)
      (generateRss pages) :=
    (hperm.pairwise_iff (fun {x y} hab => Ne.symm hab)).mpr hne
  refine ⟨hperm, ?_, ?_⟩
  · exact (hsorted.and hne').imp (fun hab => lt_of_le_of_ne hab.1 (Ne.symm hab.2))
  · intro e he
    rcases List.mem_map.mp (hperm.mem_iff.mp he) with ⟨p, hp, rfl⟩
    rcases Option.isSome_iff_exists.mp (hpub p hp) with ⟨dp, hdp⟩
    exact ⟨p, hp, rfl, rfl, rfl, by simp [rssEntryOf, hdp]⟩

/-- Witness for C7 at a concrete input: two article pages with dates 2 and 1
yield a strictly descending feed. -/
theorem C7_rss_feed_witness :
    (∀ p ∈ [pageA, pageB], p.ogType = "article")
    ∧ (∀ p ∈ [pageA, pageB], p.published.isSome)
    ∧ List.Pairwise (fun p q : PageRecord => p.published ≠ q.published) [pageA, pageB]
    ∧ List.Pairwise (fun a b : RssEntry => b.pubDate < a.pubDate)
        (generateRss [pageA, pageB]) := by
  refine ⟨by decide, by decide, by decide, ?_⟩
  exact (C7_rss_feed [pageA, pageB] (by decide) (by decide) (by decide)).2.1

/-- Coupled invariant of the two scripts: after a load and any number of
clicks from the same storage and OS signal, both hold the same applied theme
and the same stored value, and each shows its own icon for that theme. -/
theorem run_coupled (storage : Option String) (pd : Bool) (n : Nat) :
    ∃ t : String,
      (themeJs_run storage pd n).dataTheme = some t
      ∧ (scriptsThemeJs_run storage pd n).dataTheme = some t
      ∧ (themeJs_run storage pd n).storage = (scriptsThemeJs_run storage pd n).storage
      ∧ (themeJs_run storage pd n).icon = (if t = "dark" then sunIcon else moonIcon)
      ∧ (scriptsThemeJs_run storage pd n).icon = (if t = "dark" then "☀️" else "🌙") := by
  induction n with
  | zero =>
    refine ⟨jsOrString storage (if pd then "dark" else "light"), ?_, ?_, ?_, ?_, ?_⟩ <;>
      simp [themeJs_run, scriptsThemeJs_run, themeJs_load, scriptsThemeJs_load]
  | succ n ih =>
    rcases ih with ⟨t, h1, h2, h3, h4, h5⟩
    refine ⟨if t = "dark" then "light" else "dark", ?_, ?_, ?_, ?_, ?_⟩ <;>
      by_cases ht : t = "dark" <;>
        simp [themeJs_run, scriptsThemeJs_run, themeJs_click, scriptsThemeJs_click,
          h1, h2, ht]

/-- Claim C8: the two theme-toggle implementations are state-equivalent — for
every storage content, OS signal, and number of toggle clicks, they produce
the same `data-theme` attribute and the same persisted value, and their icons
differ only in markup: one shows the sun SVG exactly when the other shows the
sun emoji, and likewise for the moon. -/
theorem C8_two_scripts_equiv (storage : Option String) (pd : Bool) (n : Nat) :
    (themeJs_run storage pd n).dataTheme = (scriptsThemeJs_run storage pd n).dataTheme
    ∧ (themeJs_run storage pd n).storage = (scriptsThemeJs_run storage pd n).storage
    ∧ ((themeJs_run storage pd n).icon = sunIcon
        ↔ (scriptsThemeJs_run storage pd n).icon = "☀️")
    ∧ ((themeJs_run storage pd n).icon = moonIcon
        ↔ (scriptsThemeJs_run storage pd n).icon = "🌙") := by
  rcases run_coupled storage pd n with ⟨t, h1, h2, h3, h4, h5⟩
  refine ⟨h1.trans h2.symm, h3, ?_, ?_⟩ <;>
    by_cases ht : t = "dark" <;>
      simp [h4, h5, ht, sunIcon, moonIcon]

/-- Claim C9: load-time initialization does not validate the stored value —
any non-empty stored string is applied to `data-theme` verbatim and any value
other than exactly `dark` gets the moon icon, while a stored empty string is
treated as absent and falls back to the OS preference.  Both script
variants. -/
theorem C9_no_validation (s : String) (pd : Bool) (st st' : DOMState)
    (hs : s ≠ "") (h : st.storage = some s) (h' : st'.storage = some "") :
    (themeJs_load pd st).dataTheme = some s
    ∧ (s ≠ "dark" → (themeJs_load pd st).icon = moonIcon)
    ∧ (scriptsThemeJs_load pd st).dataTheme = some s
    ∧ (s ≠ "dark" → (scriptsThemeJs_load pd st).icon = "🌙")
    ∧ (themeJs_load pd st').dataTheme = some (if pd then "dark" else "light")
    ∧ (scriptsThemeJs_load pd st').dataTheme = some (if pd then "dark" else "light") := by
  refine ⟨?_, ?_, ?_, ?_, ?_, ?_⟩
  · simp [themeJs_load, jsOrString, h, hs]
  · intro hd
    simp [themeJs_load, jsOrString, h, hs, hd]
  · simp [scriptsThemeJs_load, jsOrString, h, hs]
  · intro hd
    simp [scriptsThemeJs_load, jsOrString, h, hs, hd]
  · simp [themeJs_load, jsOrString, h']
  · simp [scriptsThemeJs_load, jsOrString, h']

/-- Witness for C9 at a concrete input: stored `"purple"` is applied verbatim
and renders the moon icon; stored `""` falls back to the OS (light) theme. -/
theorem C9_no_validation_witness :
    (("purple" : String) ≠ "")
    ∧ ({ dataTheme := none, storage := some "purple", icon := "" } : DOMState).storage
        = some "purple"
    ∧ ({ dataTheme := none, storage := some "", icon := "" } : DOMState).storage = some ""
    ∧ (themeJs_load false { dataTheme := none, storage := some "purple", icon := "" }).dataTheme
        = some "purple"
    ∧ (themeJs_load false { dataTheme := none, storage := some "", icon := "" }).dataTheme
        = some (if false then "dark" else "light") := by
  have hmain := C9_no_validation "purple" false
    { dataTheme := none, storage := some "purple", icon := "" }
    { dataTheme := none, storage := some "", icon := "" }
    (by decide) rfl rfl
  exact ⟨by decide, rfl, rfl, hmain.1, hmain.2.2.2.2.1⟩

/-- Claim C10: one toggle click normalizes any prior state — whatever the
prior `data-theme` attribute (absent, `light`, `dark`, or arbitrary), after
one click the attribute and the persisted value agree and are `light` or
`dark`, and every non-`dark` prior value transitions to `dark`.  Both script
variants. -/
theorem C10_click_normalizes (st : DOMState) :
    ((themeJs_click st).dataTheme = some "light"
      ∨ (themeJs_click st).dataTheme = some "dark")
    ∧ (themeJs_click st).storage = (themeJs_click st).dataTheme
    ∧ (st.dataTheme ≠ some "dark" → (themeJs_click st).dataTheme = some "dark")
    ∧ ((scriptsThemeJs_click st).dataTheme = some "light"
      ∨ (scriptsThemeJs_click st).dataTheme = some "dark")
    ∧ (scriptsThemeJs_click st).storage = (scriptsThemeJs_click st).dataTheme
    ∧ (st.dataTheme ≠ some "dark" → (scriptsThemeJs_click st).dataTheme = some "dark") := by
  by_cases hd : st.dataTheme = some "dark" <;>
    simp [themeJs_click, scriptsThemeJs_click, hd]

/-- Witness for C10 at a concrete input: the out-of-range attribute `"purple"`
transitions to `dark` in one click. -/
theorem C10_click_normalizes_witness :
    (({ dataTheme := some "purple", storage := none, icon := "" } : DOMState).dataTheme
        ≠ some "dark")
    ∧ (themeJs_click { dataTheme := some "purple", storage := none, icon := "" }).dataTheme
        = some "dark" := by
  refine ⟨by decide, ?_⟩
  exact (C10_click_normalizes
    { dataTheme := some "purple", storage := none, icon := "" }).2.2.1 (by decide)
